import Mathlib

/-!
Shallow embedding of `agentstack/templates/crewai/tools/agent_connect_tool.py`.

The file instantiates an externally-owned `SimpleNode`, persists/loads a DID
credential record on disk (`generate_did_info`), and exposes three tool
wrappers (`connect_to_agent`, `send_message`, `receive_message`) that proxy
single calls into the external node/session objects.  The external library's
calls are modelled by passing their outcome (`Except Exn _`) as an argument;
the filesystem is modelled explicitly as a value threaded through
`generate_did_info`.
-/

namespace AgentConnectTool

/-- A Python exception value, abstracted to its message.  `except Exception`
in the wrappers catches every such value. -/
inductive Exn where
  | mk (msg : String)
deriving DecidableEq

/-- A `SimpleNodeSession` object as seen by the wrappers: an identity plus its
Python truthiness (the `if session:` test in `connect_to_agent`). -/
structure SimpleNodeSession where
  sid : Nat
  truthy : Bool
deriving DecidableEq

/-- Python truthiness of the value returned by `connect_to_did`: `None` is
falsy, an object is as truthy as its `__bool__`. -/
def pyTruthy : Option SimpleNodeSession → Bool
  | none => false
  | some s => s.truthy

/-- Embedding of the tool `connect_to_agent(destination_did)`.  The argument
is the outcome of the single underlying call
`await agent_connect_simple_node.connect_to_did(destination_did)`:
either a raised exception or a returned value (possibly `None`).
The source returns `session` if `session` is truthy, else `None`, and maps
any exception to `None`. -/
def connect_to_agent (call : Except Exn (Option SimpleNodeSession)) :
    Option SimpleNodeSession :=
  match call with
  | .ok session => if pyTruthy session then session else none
  | .error _ => none

/-- Embedding of the tool `send_message(session, message)`.  The argument is
the outcome of the single underlying call `await session.send_message(message)`
(a bool per the external interface, or a raised exception).  The source
returns `True` if `success` is truthy, `False` otherwise, and maps any
exception to `False`. -/
def send_message (call : Except Exn Bool) : Bool :=
  match call with
  | .ok success => if success then true else false
  | .error _ => false

/-- Inbound message payloads (`bytes`), abstracted as byte lists. -/
def Bytes := List Nat

/-- Embedding of the tool `receive_message(session)`.  The source body is the
single statement `return await session.receive_message()` with no
`try`/`except`, so the outcome of the underlying call — including a raised
exception — is handed to the caller unchanged. -/
def receive_message (call : Except Exn (Option Bytes)) :
    Except Exn (Option Bytes) :=
  call

end AgentConnectTool

namespace AgentConnectTool

/-- Content of a file on disk, as seen through `json.load`: a JSON object
(modelled with string values, the shape of the credential record per the
external interface), some other valid JSON value, or text that is not JSON. -/
inductive FileData where
  | jsonObj (entries : List (String × String))
  | jsonNonObject
  | invalid
deriving DecidableEq

/-- The local filesystem: an association list of files (later writes are
consed in front, so lookup sees the latest) and the list of directories
created so far. -/
structure FS where
  files : List (String × FileData)
  dirs : List String
deriving DecidableEq

/-- Content of the file at `p`, `none` when no file exists there
(`os.path.exists` is false). -/
def FS.fileAt (fs : FS) (p : String) : Option FileData :=
  fs.files.lookup p

/-- Writing a file: `open(p, "w")` + dump replaces the content at `p`. -/
def FS.write (fs : FS) (p : String) (d : FileData) : FS :=
  { fs with files := (p, d) :: fs.files }

/-- Exceptions that the credential routine can raise. -/
inductive PyErr where
  | jsonDecodeError
  | typeError
  | keyError (k : String)
  | fileNotFoundError (p : String)
deriving DecidableEq

/-- The spec's `MalformedCredentialError`: the abstract name for the
exceptions the load branch raises when the file cannot be parsed into the
three required fields (`json.JSONDecodeError`, `TypeError`, `KeyError`). -/
def malformedCredential : PyErr → Bool
  | .jsonDecodeError => true
  | .typeError => true
  | .keyError _ => true
  | .fileNotFoundError _ => false

/-- Index one past the last `/` in the character list, 0 when there is
none: Python's `p.rfind(sep) + 1` for `sep = '/'`. -/
def rfindSlashSucc (cs : List Char) : Nat :=
  (List.range cs.length).foldl
    (fun acc i => if cs.get? i = some '/' then i + 1 else acc) 0

/-- Strip trailing `/` characters: Python's `head.rstrip(sep)`. -/
def rstripSlashes (cs : List Char) : List Char :=
  (cs.reverse.dropWhile (· = '/')).reverse

/-- Embedding of `os.path.dirname` (posixpath): take the prefix up to and
including the last `/`, then strip trailing slashes unless the prefix is
empty or consists only of slashes.  In particular a bare filename has
dirname `""`. -/
def dirname (p : String) : String :=
  let cs := p.toList
  let head := cs.take (rfindSlashSucc cs)
  let head :=
    if head ≠ [] ∧ ¬ head.all (· = '/') then rstripSlashes head else head
  String.mk head

/-- Embedding of `os.makedirs(d, exist_ok=True)`: on the empty string the
underlying `mkdir("")` raises `FileNotFoundError` (and `exist_ok` does not
save it, since `isdir("")` is false); on a non-empty path the directory is
created (or already exists) and the call succeeds. -/
def makedirs (d : String) (fs : FS) : Except PyErr FS :=
  if d = "" then .error (.fileNotFoundError d)
  else .ok { fs with dirs := d :: fs.dirs }

/-- The credential bundle: the three values handed to `node.set_did_info`
and stored in the JSON record. -/
structure DidInfo where
  private_key_pem : String
  did : String
  did_document_json : String
deriving DecidableEq

/-- Outcome of running `generate_did_info`: either the routine completes
with the node holding `info` and the filesystem in state `fs`, or it raises
`e` with `assigned` recording what `set_did_info` received (if it was
reached) and `fs` the filesystem at the point of the raise. -/
inductive GenOutcome where
  | ok (info : DidInfo) (fs : FS)
  | err (e : PyErr) (assigned : Option DidInfo) (fs : FS)
deriving DecidableEq

/-- The JSON record `json.dump` writes in the generate branch: exactly the
three fields, in source order. -/
def dumpRecord (info : DidInfo) : FileData :=
  .jsonObj [("private_key_pem", info.private_key_pem),
            ("did", info.did),
            ("did_document_json", info.did_document_json)]

/-- Embedding of `generate_did_info(node, did_document_path)`.  `gen` is the
value returned by the external capability `node.generate_did_document()`.
If a file exists at the path, it is parsed and its three fields are passed
to `node.set_did_info` (a missing field raises `KeyError` while evaluating
the arguments, in source order; non-object JSON raises `TypeError`; text
that is not JSON raises `json.JSONDecodeError`).  Otherwise the fresh
bundle is assigned to the node, `os.makedirs(os.path.dirname(path))` is
called, and the record is written. -/
def generate_did_info (gen : DidInfo) (path : String) (fs : FS) : GenOutcome :=
  match fs.fileAt path with
  | some (.jsonObj entries) =>
    match entries.lookup "private_key_pem" with
    | none => .err (.keyError "private_key_pem") none fs
    | some pem =>
      match entries.lookup "did" with
      | none => .err (.keyError "did") none fs
      | some d =>
        match entries.lookup "did_document_json" with
        | none => .err (.keyError "did_document_json") none fs
        | some doc => .ok ⟨pem, d, doc⟩ fs
  | some .jsonNonObject => .err .typeError none fs
  | some .invalid => .err .jsonDecodeError none fs
  | none =>
    match makedirs (dirname path) fs with
    | .error e => .err e (some gen) fs
    | .ok fs1 => .ok gen (fs1.write path (dumpRecord gen))

/-- A stored record that cannot be parsed into the three required fields:
not JSON, JSON that is not an object, or an object missing one of the
required keys. -/
def recordMalformed : FileData → Bool
  | .invalid => true
  | .jsonNonObject => true
  | .jsonObj entries =>
    (entries.lookup "private_key_pem").isNone ||
      (entries.lookup "did").isNone ||
      (entries.lookup "did_document_json").isNone

/-- The exception the load branch raises for a given malformed content. -/
def loadErr : FileData → PyErr
  | .invalid => .jsonDecodeError
  | .jsonNonObject => .typeError
  | .jsonObj entries =>
    match entries.lookup "private_key_pem" with
    | none => .keyError "private_key_pem"
    | some _ =>
      match entries.lookup "did" with
      | none => .keyError "did"
      | some _ => .keyError "did_document_json"

/-- Process environment at module load time: the six variables read by the
`os.getenv` calls at the top of the file. -/
structure Env where
  HOST_DOMAIN : Option String
  HOST_PORT : Option String
  HOST_WS_PATH : Option String
  DID_DOCUMENT_PATH : Option String
  SSL_CERT_PATH : Option String
  SSL_KEY_PATH : Option String
deriving DecidableEq

/-- Module-level `host_domain = os.getenv("HOST_DOMAIN")`. -/
def host_domain (env : Env) : Option String := env.HOST_DOMAIN

/-- Module-level `host_port = os.getenv("HOST_PORT")`. -/
def host_port (env : Env) : Option String := env.HOST_PORT

/-- Module-level `host_ws_path = os.getenv("HOST_WS_PATH")`. -/
def host_ws_path (env : Env) : Option String := env.HOST_WS_PATH

/-- Module-level `did_document_path = os.getenv("DID_DOCUMENT_PATH")`. -/
def did_document_path (env : Env) : Option String := env.DID_DOCUMENT_PATH

/-- Module-level `ssl_cert_path = os.getenv("SSL_CERT_PATH")`. -/
def ssl_cert_path (env : Env) : Option String := env.SSL_CERT_PATH

/-- Module-level `ssl_key_path = os.getenv("SSL_KEY_PATH")`. -/
def ssl_key_path (env : Env) : Option String := env.SSL_KEY_PATH

/-- Modelled from the spec: the `SimpleNode` constructor itself is external
library code not under `src/`; its contract (`Node(bindHost, bindPort,
wsPath, onNewSession, tlsCert?, tlsKey?)`) makes the TLS certificate and key
optional parameters that stay unset when a call site does not pass them.
This structure records the arguments a construction call supplies, with the
optional TLS parameters defaulting to `none`. -/
structure SimpleNodeArgs where
  host_domain : Option String
  new_session_callback_passed : Bool
  host_port : Option String
  host_ws_path : Option String
  ssl_cert_path : Option String := none
  ssl_key_path : Option String := none
deriving DecidableEq

/-- Embedding of the module-level construction
`SimpleNode(host_domain=..., new_session_callback=..., host_port=...,
host_ws_path=...)`: the keyword arguments the source passes. The TLS paths
are not among them, so they take the constructor defaults. -/
def agent_connect_simple_node (env : Env) : SimpleNodeArgs :=
  { host_domain := host_domain env
    new_session_callback_passed := true
    host_port := host_port env
    host_ws_path := host_ws_path env }

end AgentConnectTool

namespace AgentConnectTool

/-- C1: the claim says all three wrappers convert every failure of their
underlying call to a sentinel; in fact `receive_message` has no exception
handler, so an exception raised by the underlying receive primitive
propagates to the caller unchanged instead of becoming `None`. -/
theorem receive_message_propagates (e : Exn) :
    receive_message (.error e) = .error e :=
  rfl

/-- C6: for every exception raised by the underlying connect call,
`connect_to_agent` returns `None`; the exception never escapes and the
return value carries no failure detail. -/
theorem connect_to_agent_exception_to_none (e : Exn) :
    connect_to_agent (.error e) = none :=
  rfl

/-- C7: `send_message` returns `true` exactly when the underlying send call
returns a confirmed `True`; every raised exception is mapped to `false`. -/
theorem send_message_true_iff_confirmed :
    (∀ call : Except Exn Bool, send_message call = true ↔ call = .ok true) ∧
    (∀ e : Exn, send_message (.error e) = false) := by
  constructor
  · intro call
    cases call with
    | ok b => cases b <;> simp [send_message]
    | error e => simp [send_message]
  · intro e
    rfl

/-- C9: `connect_to_agent` returns either `None` or exactly the truthy
session object produced by the underlying connect call; a falsy return
value (such as `None`) from the underlying call is mapped to `None`. -/
theorem connect_to_agent_range (call : Except Exn (Option SimpleNodeSession)) :
    connect_to_agent call = none ∨
      ∃ s : SimpleNodeSession,
        call = .ok (some s) ∧ s.truthy = true ∧ connect_to_agent call = some s := by
  cases call with
  | error e => exact Or.inl rfl
  | ok session =>
    cases session with
    | none => exact Or.inl rfl
    | some s =>
      by_cases h : s.truthy = true
      · exact Or.inr ⟨s, rfl, h, by simp [connect_to_agent, pyTruthy, h]⟩
      · exact Or.inl (by simp [connect_to_agent, pyTruthy, h])

/-- C2 counterexample: at the bare filename `"did.json"` (no file exists
there, and its dirname is empty) the generate branch raises
`FileNotFoundError` out of `os.makedirs("")`, so nothing is written and no
bundle is returned, contrary to the claim's universal quantification over
paths. -/
theorem generate_bare_filename_cex :
    FS.fileAt ⟨[], []⟩ "did.json" = none ∧
    generate_did_info ⟨"p", "d", "j"⟩ "did.json" ⟨[], []⟩ =
      .err (.fileNotFoundError "") (some ⟨"p", "d", "j"⟩) ⟨[], []⟩ := by
  exact ⟨rfl, by decide⟩

/-- C2 (amended to paths with a non-empty directory component): when no file
exists at the path, the generate branch creates the parent directory, writes
a record with exactly the three fields holding the generated values, and
completes with the node holding that same bundle; the file at the path then
contains exactly the written record. -/
theorem generate_branch_writes (gen : DidInfo) (path : String) (fs : FS)
    (hdir : dirname path ≠ "") (hnone : fs.fileAt path = none) :
    generate_did_info gen path fs =
      .ok gen ⟨(path, dumpRecord gen) :: fs.files, dirname path :: fs.dirs⟩ ∧
    FS.fileAt ⟨(path, dumpRecord gen) :: fs.files, dirname path :: fs.dirs⟩ path =
      some (dumpRecord gen) := by
  constructor
  · simp [generate_did_info, hnone, makedirs, hdir, FS.write]
  · simp [FS.fileAt, List.lookup]

/-- C2 witness: the amended theorem applied at path `/tmp/did.json` on an
empty filesystem. -/
theorem generate_branch_writes_witness :
    dirname "/tmp/did.json" ≠ "" ∧
    FS.fileAt ⟨[], []⟩ "/tmp/did.json" = none ∧
    (generate_did_info ⟨"p", "d", "j"⟩ "/tmp/did.json" ⟨[], []⟩ =
      .ok ⟨"p", "d", "j"⟩
        ⟨[("/tmp/did.json", dumpRecord ⟨"p", "d", "j"⟩)], ["/tmp"]⟩ ∧
    FS.fileAt ⟨[("/tmp/did.json", dumpRecord ⟨"p", "d", "j"⟩)], ["/tmp"]⟩
        "/tmp/did.json" = some (dumpRecord ⟨"p", "d", "j"⟩)) :=
  ⟨by decide, rfl,
    generate_branch_writes ⟨"p", "d", "j"⟩ "/tmp/did.json" ⟨[], []⟩
      (by decide) rfl⟩

/-- C3: when the file at the path holds a JSON object with the three
required fields, `generate_did_info` completes with exactly the parsed
bundle and the filesystem unchanged (no write). -/
theorem load_branch_no_write (gen : DidInfo) (path : String) (fs : FS)
    (entries : List (String × String)) (pem d doc : String)
    (hfile : fs.fileAt path = some (.jsonObj entries))
    (hpem : entries.lookup "private_key_pem" = some pem)
    (hdid : entries.lookup "did" = some d)
    (hdoc : entries.lookup "did_document_json" = some doc) :
    generate_did_info gen path fs = .ok ⟨pem, d, doc⟩ fs := by
  simp [generate_did_info, hfile, hpem, hdid, hdoc]

/-- C3 witness: loading a concrete valid record. -/
theorem load_branch_no_write_witness :
    FS.fileAt
        ⟨[("c.json", .jsonObj [("private_key_pem", "P"), ("did", "D"),
          ("did_document_json", "J")])], []⟩ "c.json" =
      some (.jsonObj [("private_key_pem", "P"), ("did", "D"),
        ("did_document_json", "J")]) ∧
    generate_did_info ⟨"p", "d", "j"⟩ "c.json"
        ⟨[("c.json", .jsonObj [("private_key_pem", "P"), ("did", "D"),
          ("did_document_json", "J")])], []⟩ =
      .ok ⟨"P", "D", "J"⟩
        ⟨[("c.json", .jsonObj [("private_key_pem", "P"), ("did", "D"),
          ("did_document_json", "J")])], []⟩ :=
  ⟨rfl,
    load_branch_no_write ⟨"p", "d", "j"⟩ "c.json" _ _ "P" "D" "J"
      rfl rfl rfl rfl⟩

/-- Whatever shape the malformed content has, the exception the load branch
raises for it counts as the spec's `MalformedCredentialError`. -/
lemma malformedCredential_loadErr (c : FileData) :
    malformedCredential (loadErr c) = true := by
  cases c with
  | invalid => rfl
  | jsonNonObject => rfl
  | jsonObj entries =>
    simp only [loadErr]
    cases entries.lookup "private_key_pem" with
    | none => rfl
    | some pem =>
      cases entries.lookup "did" with
      | none => rfl
      | some d => rfl

/-- C4: when the file at the path exists but cannot be parsed into the three
required fields, `generate_did_info` raises a `MalformedCredentialError`
(the concrete decode/type/key error for that content), assigns no identity
to the node, and leaves the filesystem unchanged. -/
theorem malformed_record_raises (gen : DidInfo) (path : String) (fs : FS)
    (content : FileData)
    (hfile : fs.fileAt path = some content)
    (hmal : recordMalformed content = true) :
    generate_did_info gen path fs = .err (loadErr content) none fs ∧
      malformedCredential (loadErr content) = true := by
  refine ⟨?_, malformedCredential_loadErr content⟩
  cases content with
  | invalid => simp [generate_did_info, hfile, loadErr]
  | jsonNonObject => simp [generate_did_info, hfile, loadErr]
  | jsonObj entries =>
    simp only [generate_did_info, hfile, loadErr]
    cases h1 : entries.lookup "private_key_pem" with
    | none => rfl
    | some pem =>
      cases h2 : entries.lookup "did" with
      | none => rfl
      | some d =>
        cases h3 : entries.lookup "did_document_json" with
        | none => rfl
        | some doc =>
          exfalso
          simp [recordMalformed, h1, h2, h3] at hmal

/-- C4 witness: a file holding unparsable text. -/
theorem malformed_record_raises_witness :
    FS.fileAt ⟨[("c.json", .invalid)], []⟩ "c.json" = some .invalid ∧
    recordMalformed .invalid = true ∧
    (generate_did_info ⟨"p", "d", "j"⟩ "c.json" ⟨[("c.json", .invalid)], []⟩ =
        .err (loadErr .invalid) none ⟨[("c.json", .invalid)], []⟩ ∧
      malformedCredential (loadErr .invalid) = true) :=
  ⟨rfl, rfl,
    malformed_record_raises ⟨"p", "d", "j"⟩ "c.json"
      ⟨[("c.json", .invalid)], []⟩ .invalid rfl rfl⟩

/-- C5: `generate_did_info` is idempotent: when a call completes with bundle
`b` and filesystem `fs2`, a second call on `fs2` (with any value from the
external generation capability) completes with the same bundle `b` and
leaves `fs2` unchanged. -/
theorem generate_did_info_idempotent (gen gen2 : DidInfo) (path : String)
    (fs fs2 : FS) (b : DidInfo)
    (h : generate_did_info gen path fs = .ok b fs2) :
    generate_did_info gen2 path fs2 = .ok b fs2 := by
  cases hfile : fs.fileAt path with
  | some content =>
    cases content with
    | jsonObj entries =>
      simp only [generate_did_info, hfile] at h
      cases h1 : entries.lookup "private_key_pem" with
      | none => rw [h1] at h; cases h
      | some pem =>
        rw [h1] at h
        cases h2 : entries.lookup "did" with
        | none => rw [h2] at h; cases h
        | some d =>
          rw [h2] at h
          cases h3 : entries.lookup "did_document_json" with
          | none => rw [h3] at h; cases h
          | some doc =>
            rw [h3] at h
            rw [GenOutcome.ok.injEq] at h
            obtain ⟨hb, hfs⟩ := h
            subst hb
            subst hfs
            simp [generate_did_info, hfile, h1, h2, h3]
    | jsonNonObject => simp [generate_did_info, hfile] at h
    | invalid => simp [generate_did_info, hfile] at h
  | none =>
    simp only [generate_did_info, hfile, makedirs] at h
    by_cases hd : dirname path = ""
    · simp [hd] at h
    · simp only [hd, if_false, ite_false] at h
      rw [GenOutcome.ok.injEq] at h
      obtain ⟨hb, hfs⟩ := h
      subst hb
      subst hfs
      simp [generate_did_info, FS.fileAt, FS.write, dumpRecord, List.lookup]

/-- C5 witness: first call generates and writes at `/tmp/did.json`; the
second call on the resulting filesystem loads the same bundle. -/
theorem generate_did_info_idempotent_witness :
    generate_did_info ⟨"p", "d", "j"⟩ "/tmp/did.json" ⟨[], []⟩ =
      .ok ⟨"p", "d", "j"⟩
        ⟨[("/tmp/did.json", dumpRecord ⟨"p", "d", "j"⟩)], ["/tmp"]⟩ ∧
    generate_did_info ⟨"x", "y", "z"⟩ "/tmp/did.json"
        ⟨[("/tmp/did.json", dumpRecord ⟨"p", "d", "j"⟩)], ["/tmp"]⟩ =
      .ok ⟨"p", "d", "j"⟩
        ⟨[("/tmp/did.json", dumpRecord ⟨"p", "d", "j"⟩)], ["/tmp"]⟩ :=
  ⟨by decide,
    generate_did_info_idempotent ⟨"p", "d", "j"⟩ ⟨"x", "y", "z"⟩
      "/tmp/did.json" ⟨[], []⟩ _ _ (by decide)⟩

/-- C8 counterexample: with both TLS paths provided in the environment, the
module reads them into `ssl_cert_path`/`ssl_key_path` but the `SimpleNode`
construction call passes neither, so the node's optional TLS parameters stay
unset. -/
theorem tls_paths_not_passed_cex :
    ssl_cert_path ⟨some "example.com", some "443", some "/ws",
        some "/tmp/did.json", some "/tmp/cert.pem", some "/tmp/key.pem"⟩ =
      some "/tmp/cert.pem" ∧
    ssl_key_path ⟨some "example.com", some "443", some "/ws",
        some "/tmp/did.json", some "/tmp/cert.pem", some "/tmp/key.pem"⟩ =
      some "/tmp/key.pem" ∧
    (agent_connect_simple_node ⟨some "example.com", some "443", some "/ws",
        some "/tmp/did.json", some "/tmp/cert.pem", some "/tmp/key.pem"⟩).ssl_cert_path =
      none ∧
    (agent_connect_simple_node ⟨some "example.com", some "443", some "/ws",
        some "/tmp/did.json", some "/tmp/cert.pem", some "/tmp/key.pem"⟩).ssl_key_path =
      none :=
  ⟨rfl, rfl, rfl, rfl⟩

/-- C8 (amended): the host domain, port and WS path from the environment are
delegated to the node's constructor (together with the session callback),
but the TLS certificate and key paths, although read at startup, are never
passed to the constructor and so never configure the node. -/
theorem node_constructor_args (env : Env) :
    agent_connect_simple_node env =
      { host_domain := host_domain env
        new_session_callback_passed := true
        host_port := host_port env
        host_ws_path := host_ws_path env
        ssl_cert_path := none
        ssl_key_path := none } :=
  rfl

/-- C10: on a path with no directory component (`dirname` empty) and no
existing file, the generate branch assigns the fresh identity to the node
but then `os.makedirs(os.path.dirname(path))` raises `FileNotFoundError` on
the empty string, so the routine raises and the filesystem is unchanged:
the file write is never reached. -/
theorem bare_path_never_writes (gen : DidInfo) (path : String) (fs : FS)
    (hdir : dirname path = "") (hnone : fs.fileAt path = none) :
    generate_did_info gen path fs =
      .err (.fileNotFoundError "") (some gen) fs := by
  simp [generate_did_info, hnone, makedirs, hdir]

/-- C10 witness: the bare filename `"did.json"` on an empty filesystem. -/
theorem bare_path_never_writes_witness :
    dirname "did.json" = "" ∧
    FS.fileAt ⟨[], []⟩ "did.json" = none ∧
    generate_did_info ⟨"p", "d", "j"⟩ "did.json" ⟨[], []⟩ =
      .err (.fileNotFoundError "") (some ⟨"p", "d", "j"⟩) ⟨[], []⟩ :=
  ⟨by decide, rfl,
    bare_path_never_writes ⟨"p", "d", "j"⟩ "did.json" ⟨[], []⟩
      (by decide) rfl⟩

end AgentConnectTool
